import Mathlib

/-!
Shallow embedding of the KeyFlip repository (src/transform.py, src/winapi.py)
and proofs about the behaviour its specification claims.

Python string/character methods (`isalpha`, `islower`, `upper`, `lower`) are
modelled character-wise on the character domain the program actually works
with: ASCII Latin letters and Russian Cyrillic letters (U+0410..U+044F plus
Ё/ё).  On this domain the models agree exactly with CPython's behaviour.
-/

namespace KeyFlip

/-- Model of Python `ch.isalpha()` restricted to the program's character
domain: ASCII Latin letters and Russian Cyrillic letters (А..я, Ё, ё). -/
def pyIsAlpha (c : Char) : Bool :=
  (('a' ≤ c && c ≤ 'z') || ('A' ≤ c && c ≤ 'Z')
    || (0x410 ≤ c.toNat && c.toNat ≤ 0x44F)
    || c = Char.ofNat 0x401 || c = Char.ofNat 0x451)

/-- Model of Python `ch.islower()` on the same domain. -/
def pyIsLower (c : Char) : Bool :=
  (('a' ≤ c && c ≤ 'z') || (0x430 ≤ c.toNat && c.toNat ≤ 0x44F)
    || c = Char.ofNat 0x451)

/-- Model of Python `ch.isupper()` on the same domain. -/
def pyIsUpper (c : Char) : Bool :=
  (('A' ≤ c && c ≤ 'Z') || (0x410 ≤ c.toNat && c.toNat ≤ 0x42F)
    || c = Char.ofNat 0x401)

/-- Character-wise model of Python `str.upper` on the program's domain
(ASCII and Russian Cyrillic, where `upper` is a single-character map). -/
def pyToUpper (c : Char) : Char :=
  if 'a' ≤ c && c ≤ 'z' then Char.ofNat (c.toNat - 32)
  else if 0x430 ≤ c.toNat && c.toNat ≤ 0x44F then Char.ofNat (c.toNat - 0x20)
  else if c = Char.ofNat 0x451 then Char.ofNat 0x401
  else c

/-- Character-wise model of Python `str.lower` on the program's domain. -/
def pyToLower (c : Char) : Char :=
  if 'A' ≤ c && c ≤ 'Z' then Char.ofNat (c.toNat + 32)
  else if 0x410 ≤ c.toNat && c.toNat ≤ 0x42F then Char.ofNat (c.toNat + 0x20)
  else if c = Char.ofNat 0x401 then Char.ofNat 0x451
  else c

/-- Model of Python `s.upper()` (character-wise on the modelled domain). -/
def pyUpper (s : String) : String := String.mk (s.data.map pyToUpper)

/-- Model of Python `s.lower()` (character-wise on the modelled domain). -/
def pyLower (s : String) : String := String.mk (s.data.map pyToLower)

/-- Embedding of `transform.change_case_by_logic` (src/transform.py):
return `s` unchanged when empty or letterless; uppercase everything when
all letters are lowercase; otherwise lowercase everything. -/
def change_case_by_logic (s : String) : String :=
  if s = "" then s
  else
    let letters := s.data.filter pyIsAlpha
    if letters = [] then s
    else if letters.all pyIsLower then pyUpper s
    else pyLower s

/-! ### Layout tables and layout-flip transform (src/transform.py) -/

/-- The literal entries of the `EN_TO_RU` dict in src/transform.py, in
source order, before the loop that adds the uppercase letter pairs.
`Char.ofNat 39` is the apostrophe, `Char.ofNat 34` the double quote and
`Char.ofNat 96` the backtick. -/
def EN_TO_RU_base : List (Char × Char) :=
  [('q', 'й'), ('w', 'ц'), ('e', 'у'), ('r', 'к'), ('t', 'е'), ('y', 'н'),
   ('u', 'г'), ('i', 'ш'), ('o', 'щ'), ('p', 'з'),
   ('a', 'ф'), ('s', 'ы'), ('d', 'в'), ('f', 'а'), ('g', 'п'), ('h', 'р'),
   ('j', 'о'), ('k', 'л'), ('l', 'д'),
   ('z', 'я'), ('x', 'ч'), ('c', 'с'), ('v', 'м'), ('b', 'и'), ('n', 'т'),
   ('m', 'ь'),
   ('1', '1'), ('!', '!'),
   ('2', '2'), ('@', Char.ofNat 34),
   ('3', '3'), ('#', '№'),
   ('4', '4'), ('$', ';'),
   ('5', '5'), ('%', '%'),
   ('6', '6'), ('^', ':'),
   ('7', '7'), ('&', '?'),
   ('8', '8'), ('*', '*'),
   ('9', '9'), ('(', '('),
   ('0', '0'), (')', ')'),
   (',', 'б'), ('<', 'Б'),
   ('.', 'ю'), ('>', 'Ю'),
   ('/', '.'), ('?', ','),
   (';', 'ж'), (':', 'Ж'),
   (Char.ofNat 39, 'э'), (Char.ofNat 34, 'Э'),
   ('[', 'х'), ('\x7b', 'Х'),
   (']', 'ъ'), ('\x7d', 'Ъ'),
   ('\\', '\\'), ('|', '|'),
   (Char.ofNat 96, 'ё'), ('~', 'Ё'),
   ('-', '-'), ('_', '_'),
   ('=', '='), ('+', '+')]

/-- `EN_TO_RU` after the source's loop
`for k, v in list(EN_TO_RU.items()): if k.isalpha(): EN_TO_RU[k.upper()] = v.upper()`:
the uppercase pairs are appended in iteration order after the base entries
(new dict keys are appended in insertion order). -/
def EN_TO_RU : List (Char × Char) :=
  EN_TO_RU_base ++
    (EN_TO_RU_base.filter (fun p => pyIsAlpha p.1)).map
      (fun p => (pyToUpper p.1, pyToUpper p.2))

/-- `RU_TO_EN = {v: k for k, v in EN_TO_RU.items()}` followed by the
explicit assignments of backtick for `ё` and `~` for `Ё`.  A Python dict
gives the *last* binding of a key, which the lookup model below reproduces
by searching the reversed list, so appending the two assignments is an
exact model of the overwriting stores. -/
def RU_TO_EN : List (Char × Char) :=
  EN_TO_RU.map (fun p => (p.2, p.1)) ++
    [('ё', Char.ofNat 96), ('Ё', '~')]

/-- Python dict lookup over an association list: the last binding of a key
wins, `none` when the key is absent (models both `d[ch]` and `ch in d`). -/
def pyDictGet (l : List (Char × Char)) (c : Char) : Option Char :=
  (l.reverse.find? (fun p => p.1 == c)).map (fun p => p.2)

/-- Embedding of `transform._select_mappings_by_hkl`: returns
`(mapping, reverse, prefer_name)`; RU→EN when the low 16 bits of the
layout handle equal 0x0419, EN→RU otherwise. -/
def _select_mappings_by_hkl (hkl : Nat) :
    List (Char × Char) × List (Char × Char) × String :=
  let lang := hkl % 65536
  if lang = 0x0419 then (RU_TO_EN, EN_TO_RU, "RU->EN")
  else (EN_TO_RU, RU_TO_EN, "EN->RU")

/-- The per-character body of the loop in
`transform.transform_text_by_keyboard_layout_based_on_hkl`: try the main
map, then the reverse map, else keep the character. -/
def flip_char (mapping reverse : List (Char × Char)) (ch : Char) : Char :=
  match pyDictGet mapping ch with
  | some c => c
  | none =>
    match pyDictGet reverse ch with
    | some c => c
    | none => ch

/-- Embedding of `transform.transform_text_by_keyboard_layout_based_on_hkl`. -/
def transform_text_by_keyboard_layout_based_on_hkl (s : String) (hkl : Nat) :
    String :=
  let sel := _select_mappings_by_hkl hkl
  String.mk (s.data.map (flip_char sel.1 sel.2.1))

/-! ### Input injector (src/winapi.py: `_append_vk_press`,
`_append_shifted_enter`, `send_unicode_via_sendinput`) -/

/-- VK constants from src/winapi.py. -/
def VK_CONTROL : Nat := 0x11
def VK_MENU : Nat := 0x12
def VK_SHIFT : Nat := 0x10
def VK_DELETE : Nat := 0x2E
def VK_INSERT : Nat := 0x2D
def VK_ESCAPE : Nat := 0x1B
def VK_RETURN : Nat := 0x0D
def VK_TAB : Nat := 0x09
def VK_LSHIFT : Nat := 0xA0
def VK_RSHIFT : Nat := 0xA1
def VK_LCONTROL : Nat := 0xA2
def VK_RCONTROL : Nat := 0xA3
def VK_LMENU : Nat := 0xA4
def VK_RMENU : Nat := 0xA5
def VK_LWIN : Nat := 0x5B
def VK_RWIN : Nat := 0x5C

/-- One synthesized keyboard event: either a raw-Unicode event carrying a
code point (`KEYEVENTF_UNICODE`, `wScan = code`) or a virtual-key event. -/
inductive KeyEvent where
  | uniDown (code : Nat)
  | uniUp (code : Nat)
  | vkDown (vk : Nat)
  | vkUp (vk : Nat)
  deriving DecidableEq, Repr

/-- Embedding of `_append_vk_press`: a down/up pair for a virtual key. -/
def _append_vk_press (vk : Nat) : List KeyEvent :=
  [KeyEvent.vkDown vk, KeyEvent.vkUp vk]

/-- Embedding of `_append_shifted_enter`: SHIFT down, ENTER down/up,
SHIFT up. -/
def _append_shifted_enter : List KeyEvent :=
  [KeyEvent.vkDown VK_SHIFT, KeyEvent.vkDown VK_RETURN,
   KeyEvent.vkUp VK_RETURN, KeyEvent.vkUp VK_SHIFT]

/-- A character's Unicode down/up pair; `wScan` is a 16-bit WORD field, so
the code point is stored mod 2^16, as ctypes does. -/
def uni_pair (c : Char) : List KeyEvent :=
  [KeyEvent.uniDown (c.toNat % 65536), KeyEvent.uniUp (c.toNat % 65536)]

/-- The event-building loop of `send_unicode_via_sendinput`: CR, LF, and
the CRLF pair (skipping the LF, one break for the pair) become the
Shift+Enter chord; a tab becomes a VK_TAB press; every other character
becomes a Unicode down/up pair. -/
def build_inputs : List Char → List KeyEvent
  | [] => []
  | '\r' :: '\n' :: rest => _append_shifted_enter ++ build_inputs rest
  | '\r' :: rest => _append_shifted_enter ++ build_inputs rest
  | '\n' :: rest => _append_shifted_enter ++ build_inputs rest
  | '\t' :: rest => _append_vk_press VK_TAB ++ build_inputs rest
  | ch :: rest => uni_pair ch ++ build_inputs rest

/-- Embedding of `send_unicode_via_sendinput` as the batch of events it
submits (empty text submits nothing). -/
def send_unicode_via_sendinput (text : String) : List KeyEvent :=
  if text = "" then [] else build_inputs text.data

/-- Spec-side tokenization of text to inject, following §4.4's words: any
line-break sequence (CR, LF, or CRLF as one break) is a break token, a
literal tab is a tab token, anything else an ordinary character. -/
inductive InjectToken where
  | brk
  | tab
  | chr (c : Char)
  deriving DecidableEq, Repr

/-- Spec-side tokenizer (modelled from the spec's wording, for the
refinement statement of the injector claim). -/
def spec_tokenize : List Char → List InjectToken
  | [] => []
  | '\r' :: '\n' :: rest => InjectToken.brk :: spec_tokenize rest
  | '\r' :: rest => InjectToken.brk :: spec_tokenize rest
  | '\n' :: rest => InjectToken.brk :: spec_tokenize rest
  | '\t' :: rest => InjectToken.tab :: spec_tokenize rest
  | c :: rest => InjectToken.chr c :: spec_tokenize rest

/-- Spec-side rendering of one token: a break is the Shift+Enter chord
(never a plain Enter), a tab is a Tab key pair, an ordinary character is
one Unicode down/up pair. -/
def spec_render_token : InjectToken → List KeyEvent
  | InjectToken.brk =>
      [KeyEvent.vkDown 0x10, KeyEvent.vkDown 0x0D,
       KeyEvent.vkUp 0x0D, KeyEvent.vkUp 0x10]
  | InjectToken.tab => [KeyEvent.vkDown 0x09, KeyEvent.vkUp 0x09]
  | InjectToken.chr c =>
      [KeyEvent.uniDown (c.toNat % 65536), KeyEvent.uniUp (c.toNat % 65536)]

/-- `true` iff every Enter (VK 0x0D) event in the list occurs only inside
a full Shift+Enter chord — i.e. no plain Enter keystroke is present. -/
def no_plain_enter : List KeyEvent → Bool
  | KeyEvent.vkDown 0x10 :: KeyEvent.vkDown 0x0D :: KeyEvent.vkUp 0x0D ::
      KeyEvent.vkUp 0x10 :: rest => no_plain_enter rest
  | KeyEvent.vkDown 0x0D :: _ => false
  | KeyEvent.vkUp 0x0D :: _ => false
  | _ :: rest => no_plain_enter rest
  | [] => true

/-! ### Hotkey name/mask resolution (src/winapi.py) -/

/-- The `VK_MAP` dict of readable key names, in source order. -/
def VK_MAP : List (String × Nat) :=
  [("F1", 0x70), ("F2", 0x71), ("F3", 0x72), ("F4", 0x73), ("F5", 0x74),
   ("F6", 0x75), ("F7", 0x76), ("F8", 0x77), ("F9", 0x78), ("F10", 0x79),
   ("F11", 0x7A), ("F12", 0x7B),
   ("ESC", 0x1B), ("TAB", 0x09), ("ENTER", 0x0D), ("RETURN", 0x0D),
   ("SPACE", 0x20), ("INSERT", 0x2D), ("DELETE", 0x2E), ("HOME", 0x24),
   ("END", 0x23), ("PGUP", 0x21), ("PGDN", 0x22),
   ("LEFT", 0x25), ("UP", 0x26), ("RIGHT", 0x27), ("DOWN", 0x28)]

/-- Python dict lookup for string-keyed dicts (last binding wins). -/
def pyStrDictGet (l : List (String × Nat)) (k : String) : Option Nat :=
  (l.reverse.find? (fun p => p.1 == k)).map (fun p => p.2)

/-- Model of `int(getattr(win32con, n, 0))` for the `VK_…` branch of
`key_name_to_vk`: the standard `win32con` virtual-key constants, with
getattr's default 0 for any other name.  (win32con is an external
library; only the constants it actually exports are listed.) -/
def win32con_vk (n : String) : Nat :=
  (pyStrDictGet
    [("VK_BACK", 0x08), ("VK_TAB", 0x09), ("VK_RETURN", 0x0D),
     ("VK_SHIFT", 0x10), ("VK_CONTROL", 0x11), ("VK_MENU", 0x12),
     ("VK_PAUSE", 0x13), ("VK_CAPITAL", 0x14), ("VK_ESCAPE", 0x1B),
     ("VK_SPACE", 0x20), ("VK_PRIOR", 0x21), ("VK_NEXT", 0x22),
     ("VK_END", 0x23), ("VK_HOME", 0x24), ("VK_LEFT", 0x25),
     ("VK_UP", 0x26), ("VK_RIGHT", 0x27), ("VK_DOWN", 0x28),
     ("VK_SNAPSHOT", 0x2C), ("VK_INSERT", 0x2D), ("VK_DELETE", 0x2E),
     ("VK_F1", 0x70), ("VK_F2", 0x71), ("VK_F3", 0x72), ("VK_F4", 0x73),
     ("VK_F5", 0x74), ("VK_F6", 0x75), ("VK_F7", 0x76), ("VK_F8", 0x77),
     ("VK_F9", 0x78), ("VK_F10", 0x79), ("VK_F11", 0x7A),
     ("VK_F12", 0x7B)] n).getD 0

/-- Embedding of `key_name_to_vk`: uppercase the name; empty names and
names resolving nowhere fall back to `VK_MAP.get("F10", 0x79)`; a single
character A–Z or 0–9 resolves to its ASCII code; a `VK_…` name goes
through the win32con constants. -/
def key_name_to_vk (name : String) : Nat :=
  let n := pyUpper name
  if n = "" then 0x79
  else
    match pyStrDictGet VK_MAP n with
    | some v => v
    | none =>
      let fallthrough : Nat := if n.take 3 = "VK_" then win32con_vk n else 0x79
      match n.data with
      | [ch] =>
        if 'A' ≤ ch && ch ≤ 'Z' then ch.toNat
        else if '0' ≤ ch && ch ≤ '9' then ch.toNat
        else fallthrough
      | _ => fallthrough

/-- MOD masks for RegisterHotKey from src/winapi.py. -/
def MOD_NONE : Nat := 0
def MOD_ALT : Nat := 0x0001
def MOD_CONTROL : Nat := 0x0002
def MOD_SHIFT : Nat := 0x0004
def MOD_WIN : Nat := 0x0008

/-- Embedding of `modifiers_list_to_mask`. -/
def modifiers_list_to_mask (mods : List String) : Nat :=
  mods.foldl (fun mask m =>
    let mm := pyUpper m
    if mm = "ALT" then mask ||| MOD_ALT
    else if mm = "CTRL" || mm = "CONTROL" then mask ||| MOD_CONTROL
    else if mm = "SHIFT" then mask ||| MOD_SHIFT
    else if mm = "WIN" || mm = "WINDOWS" then mask ||| MOD_WIN
    else mask) 0

/-- Embedding of `hotkey_tuple_from_config`. -/
def hotkey_tuple_from_config (mods : List String) (key : String) : Nat × Nat :=
  (modifiers_list_to_mask mods, key_name_to_vk key)

/-- Embedding of `hotkeys_conflict`: two combinations conflict iff both
the mask and the key code are equal. -/
def hotkeys_conflict (mask1 vk1 mask2 vk2 : Nat) : Bool :=
  mask1 == mask2 && vk1 == vk2

/-! ### Hotkey slot registration state (src/winapi.py,
`update_*_hotkey_in_thread`) -/

/-- A hotkey slot's semantic configuration, as returned by the config
readers (`read_exit_hotkey` etc. always return both fields). -/
structure HotkeyConfig where
  modifiers : List String
  key : String
  deriving DecidableEq, Repr

/-- The three hotkey slots. -/
inductive Slot where
  | slotExit
  | slotTranslate
  | slotCase
  deriving DecidableEq, Repr

/-- The OS registration state owned by the hotkey thread: for each hotkey
id, the currently registered `(mask, vk)` pair, if any. -/
structure RegState where
  exitReg : Option (Nat × Nat)
  translateReg : Option (Nat × Nat)
  caseReg : Option (Nat × Nat)
  deriving DecidableEq, Repr

/-- Outcome of one `update_*_hotkey_in_thread` run. -/
inductive RegOutcome where
  | registered
  | conflict (sibling : Slot)
  | osFailure
  | skippedDisabled
  deriving DecidableEq, Repr

/-- Embedding of `update_exit_hotkey_in_thread`: unconditionally
unregister the exit hotkey, read the exit config (empty key falls back to
"F10"), refuse with a conflict against the translate then the case
sibling, otherwise attempt the OS registration (`osOk` abstracts whether
`RegisterHotKey` succeeds). -/
def update_exit_hotkey_in_thread (cfgE cfgT cfgC : HotkeyConfig)
    (osOk : Bool) (st : RegState) : RegState × RegOutcome :=
  let st1 : RegState := { st with exitReg := none }
  let key := if cfgE.key = "" then "F10" else cfgE.key
  let mk := hotkey_tuple_from_config cfgE.modifiers key
  let tk := hotkey_tuple_from_config cfgT.modifiers cfgT.key
  if hotkeys_conflict mk.1 mk.2 tk.1 tk.2 then
    (st1, RegOutcome.conflict Slot.slotTranslate)
  else
    let ck := hotkey_tuple_from_config cfgC.modifiers cfgC.key
    if hotkeys_conflict mk.1 mk.2 ck.1 ck.2 then
      (st1, RegOutcome.conflict Slot.slotCase)
    else if osOk then ({ st1 with exitReg := some mk }, RegOutcome.registered)
    else (st1, RegOutcome.osFailure)

/-- Embedding of `update_translate_hotkey_in_thread`: unconditionally
unregister the translate hotkey, read the translate config (empty key
falls back to "F4"), skip registration entirely when the application is
disabled, refuse on conflict with the exit then the case sibling,
otherwise attempt the OS registration. -/
def update_translate_hotkey_in_thread (cfgE cfgT cfgC : HotkeyConfig)
    (enabled osOk : Bool) (st : RegState) : RegState × RegOutcome :=
  let st1 : RegState := { st with translateReg := none }
  let key := if cfgT.key = "" then "F4" else cfgT.key
  let mk := hotkey_tuple_from_config cfgT.modifiers key
  if !enabled then (st1, RegOutcome.skippedDisabled)
  else
    let ek := hotkey_tuple_from_config cfgE.modifiers cfgE.key
    if hotkeys_conflict mk.1 mk.2 ek.1 ek.2 then
      (st1, RegOutcome.conflict Slot.slotExit)
    else
      let ck := hotkey_tuple_from_config cfgC.modifiers cfgC.key
      if hotkeys_conflict mk.1 mk.2 ck.1 ck.2 then
        (st1, RegOutcome.conflict Slot.slotCase)
      else if osOk then
        ({ st1 with translateReg := some mk }, RegOutcome.registered)
      else (st1, RegOutcome.osFailure)

/-- Embedding of `update_case_hotkey_in_thread`: unconditionally
unregister the case hotkey, read the case config (empty key falls back to
"U"), refuse on conflict with the translate then the exit sibling,
otherwise attempt the OS registration. -/
def update_case_hotkey_in_thread (cfgE cfgT cfgC : HotkeyConfig)
    (osOk : Bool) (st : RegState) : RegState × RegOutcome :=
  let st1 : RegState := { st with caseReg := none }
  let key := if cfgC.key = "" then "U" else cfgC.key
  let mk := hotkey_tuple_from_config cfgC.modifiers key
  let tk := hotkey_tuple_from_config cfgT.modifiers cfgT.key
  if hotkeys_conflict mk.1 mk.2 tk.1 tk.2 then
    (st1, RegOutcome.conflict Slot.slotTranslate)
  else
    let ek := hotkey_tuple_from_config cfgE.modifiers cfgE.key
    if hotkeys_conflict mk.1 mk.2 ek.1 ek.2 then
      (st1, RegOutcome.conflict Slot.slotExit)
    else if osOk then ({ st1 with caseReg := some mk }, RegOutcome.registered)
    else (st1, RegOutcome.osFailure)

/-! ### Windows hotkey message loop (src/winapi.py, `win_hotkey_loop`) -/

/-- Hotkey ids from src/winapi.py. -/
def HOTKEY_ID_TRANSLATE : Nat := 1
def HOTKEY_ID_EXIT : Nat := 2
def HOTKEY_ID_CASE : Nat := 3

/-- The message kinds the loop distinguishes: a WM_HOTKEY fire carrying a
hotkey id, the internal MSG_* thread messages, WM_QUIT (GetMessage
returning 0), and any other message (forwarded to TranslateMessage /
DispatchMessage). -/
inductive LoopMsg where
  | hotkeyMsg (id : Nat)
  | registerTranslateMsg
  | unregisterTranslateMsg
  | registerCaseMsg
  | unregisterCaseMsg
  | updateExitMsg
  | updateTranslateMsg
  | updateCaseMsg
  | quitMsg
  | otherMsg
  deriving DecidableEq, Repr

/-- The environment the loop reads: the three slot configurations, the
global enabled flag and whether OS registration calls succeed. -/
structure LoopEnv where
  cfgE : HotkeyConfig
  cfgT : HotkeyConfig
  cfgC : HotkeyConfig
  enabled : Bool
  osOk : Bool
  deriving Repr

/-- Observable loop state: the registration state, the process-wide
cancellation flag (`exit_event`), how many times `_invoke_exit_handlers`
ran (each run calls every registered exit callback once, in order), and
how many translate/case fires were forwarded to the invokers. -/
structure LoopState where
  regs : RegState
  exitFlag : Bool
  exitInvocations : Nat
  translateForwards : Nat
  caseForwards : Nat
  deriving DecidableEq, Repr

/-- One iteration of the message loop body; the returned Bool is whether
the loop `break`s after this message. -/
def loop_step (env : LoopEnv) (msg : LoopMsg) (st : LoopState) :
    LoopState × Bool :=
  match msg with
  | LoopMsg.hotkeyMsg id =>
    if id = HOTKEY_ID_EXIT then
      -- exit branch: set exit_event, invoke handlers, unregister all, break
      ({ st with
          exitFlag := true
          exitInvocations := st.exitInvocations + 1
          regs := ⟨none, none, none⟩ }, true)
    else if id = HOTKEY_ID_TRANSLATE then
      ({ st with translateForwards := st.translateForwards + 1 }, false)
    else if id = HOTKEY_ID_CASE then
      ({ st with caseForwards := st.caseForwards + 1 }, false)
    else (st, false)
  | LoopMsg.registerTranslateMsg =>
    ({ st with regs := (update_translate_hotkey_in_thread env.cfgE env.cfgT
        env.cfgC env.enabled env.osOk st.regs).1 }, false)
  | LoopMsg.unregisterTranslateMsg =>
    ({ st with regs := { st.regs with translateReg := none } }, false)
  | LoopMsg.registerCaseMsg =>
    ({ st with regs := (update_case_hotkey_in_thread env.cfgE env.cfgT
        env.cfgC env.osOk st.regs).1 }, false)
  | LoopMsg.unregisterCaseMsg =>
    ({ st with regs := { st.regs with caseReg := none } }, false)
  | LoopMsg.updateExitMsg =>
    ({ st with regs := (update_exit_hotkey_in_thread env.cfgE env.cfgT
        env.cfgC env.osOk st.regs).1 }, false)
  | LoopMsg.updateTranslateMsg =>
    ({ st with regs := (update_translate_hotkey_in_thread env.cfgE env.cfgT
        env.cfgC env.enabled env.osOk st.regs).1 }, false)
  | LoopMsg.updateCaseMsg =>
    ({ st with regs := (update_case_hotkey_in_thread env.cfgE env.cfgT
        env.cfgC env.osOk st.regs).1 }, false)
  | LoopMsg.quitMsg => (st, true)
  | LoopMsg.otherMsg => (st, false)

/-- Run the `while True: GetMessageW …` loop over a message trace.
Returns `none` when the trace is exhausted without a break (the real loop
would block on `GetMessageW` waiting for the next message). -/
def run_loop_msgs (env : LoopEnv) : List LoopMsg → LoopState →
    Option LoopState
  | [], _ => none
  | m :: rest, st =>
    let r := loop_step env m st
    if r.2 then some r.1 else run_loop_msgs env rest r.1

/-- The loop's `finally` block: unregister all three hotkeys, set
`exit_event` and invoke the exit handlers (again). -/
def loop_cleanup (st : LoopState) : LoopState :=
  { st with
      regs := ⟨none, none, none⟩
      exitFlag := true
      exitInvocations := st.exitInvocations + 1 }

/-- The loop's startup: register the exit, translate and case hotkeys
from the current configuration. -/
def loop_startup (env : LoopEnv) : LoopState :=
  let r0 : RegState := ⟨none, none, none⟩
  let r1 := (update_exit_hotkey_in_thread env.cfgE env.cfgT env.cfgC
      env.osOk r0).1
  let r2 := (update_translate_hotkey_in_thread env.cfgE env.cfgT env.cfgC
      env.enabled env.osOk r1).1
  let r3 := (update_case_hotkey_in_thread env.cfgE env.cfgT env.cfgC
      env.osOk r2).1
  ⟨r3, false, 0, 0, 0⟩

/-- Embedding of `win_hotkey_loop` over a message trace: startup
registrations, the message loop, and — when the loop terminates — the
`finally` cleanup. -/
def win_hotkey_loop (env : LoopEnv) (msgs : List LoopMsg) :
    Option LoopState :=
  (run_loop_msgs env msgs (loop_startup env)).map loop_cleanup

/-- Does this message break the message loop (exit fire or WM_QUIT)? -/
def is_break_msg : LoopMsg → Bool
  | LoopMsg.hotkeyMsg id => id = HOTKEY_ID_EXIT
  | LoopMsg.quitMsg => true
  | _ => false

/-! ### Selection capture (src/winapi.py, `safe_copy_from_selection`) -/

/-- Externally visible actions of the capture routine. -/
inductive CopyAct where
  | actReleaseMod (vk : Nat)
  | actCtrlC
  | actCtrlInsert
  | actWriteSentinel
  deriving DecidableEq, Repr

/-- The capture routine's environment, restricted to time-constant
behaviour (sufficient for the claims, which quantify over scenarios where
the clipboard sequence number never changes): whether the sequence
counter is available, whether any poll ever observes a change (in the
sentinel fallback: whether the clipboard content ever differs from the
sentinel), the text read once a change is seen, whether the foreground
window stays the same, and which side-specific modifier VKs
`_detect_pressed_modifier_vks` found held. -/
structure CaptureEnv where
  oldSeqAvailable : Bool
  seqChanges : Bool
  clipboardText : String
  foregroundStable : Bool
  pressed : List Nat
  deriving Repr

/-- The `for attempt in range(1, max_attempts + 1)` loop of
`safe_copy_from_selection`, returning the copy keystrokes performed and
`some text` on success (`some ""` on a foreground-change abort or an
empty clipboard).  When neither Ctrl+C nor Ctrl+Insert changes the
sequence number the source hits an unconditional `break` at the end of
the round, so the recursion never reaches a second round. -/
def attempt_rounds (env : CaptureEnv) : Nat → List CopyAct × Option String
  | 0 => ([], none)
  | Nat.succ _ =>
    if !env.foregroundStable then ([], some "")
    else if env.seqChanges then ([CopyAct.actCtrlC], some env.clipboardText)
    else
      let acts := [CopyAct.actCtrlC, CopyAct.actCtrlInsert]
      if env.seqChanges then (acts, some env.clipboardText)
      else (acts, none)

/-- Embedding of `safe_copy_from_selection`: detect and release held
modifiers, then either poll the clipboard sequence counter through
`attempt_rounds`, or — when the counter is unavailable — fall back to the
sentinel strategy; on total failure return empty text (never an
exception; the embedding is a total function). -/
def safe_copy_from_selection (env : CaptureEnv) (max_attempts : Nat) :
    String × List Nat × List CopyAct :=
  let releases := env.pressed.map CopyAct.actReleaseMod
  if env.oldSeqAvailable then
    let r := attempt_rounds env max_attempts
    match r.2 with
    | some t => (t, env.pressed, releases ++ r.1)
    | none => ("", env.pressed, releases ++ r.1)
  else
    if !env.foregroundStable then ("", env.pressed, releases)
    else
      let acts1 := [CopyAct.actWriteSentinel, CopyAct.actCtrlC]
      if env.seqChanges then
        (env.clipboardText, env.pressed, releases ++ acts1)
      else
        let acts2 := acts1 ++ [CopyAct.actCtrlInsert]
        if env.seqChanges then
          (env.clipboardText, env.pressed, releases ++ acts2)
        else ("", env.pressed, releases ++ acts2)

/-! ### Transform dispatch: debounce and exclusivity lock
(src/winapi.py, `_translate_invoker`, `_case_invoker`) -/

/-- `_TRANSLATE_DEBOUNCE_SEC = 0.6` seconds, shared by both invokers;
timestamps are embedded as integer milliseconds (exact for the
comparisons the code performs), so the interval is 600. -/
def _TRANSLATE_DEBOUNCE_MS : ℤ := 600

/-- The module-level dispatch state shared by both invokers:
`_last_translate_ts` and whether `_handler_lock` is currently held. -/
structure DispatchState where
  lastTranslateTs : ℤ
  handlerLockHeld : Bool
  deriving DecidableEq, Repr

/-- Embedding of `_translate_invoker`: drop when disabled; drop when the
trigger is within the debounce interval of `_last_translate_ts`;
otherwise record the trigger time, then drop if the non-blocking lock is
busy, else take the lock and spawn the worker (the returned Bool). -/
def _translate_invoker (enabled : Bool) (now : ℤ) (st : DispatchState) :
    DispatchState × Bool :=
  if !enabled then (st, false)
  else if now - st.lastTranslateTs < _TRANSLATE_DEBOUNCE_MS then (st, false)
  else
    let st1 : DispatchState := { st with lastTranslateTs := now }
    if st1.handlerLockHeld then (st1, false)
    else ({ st1 with handlerLockHeld := true }, true)

/-- Embedding of `_case_invoker`: same body as `_translate_invoker`
(the source duplicates it), over the same shared state. -/
def _case_invoker (enabled : Bool) (now : ℤ) (st : DispatchState) :
    DispatchState × Bool :=
  if !enabled then (st, false)
  else if now - st.lastTranslateTs < _TRANSLATE_DEBOUNCE_MS then (st, false)
  else
    let st1 : DispatchState := { st with lastTranslateTs := now }
    if st1.handlerLockHeld then (st1, false)
    else ({ st1 with handlerLockHeld := true }, true)

/-- The worker's `finally: _handler_lock.release()`. -/
def release_handler_lock (st : DispatchState) : DispatchState :=
  { st with handlerLockHeld := false }

/-- The two actionable hotkey kinds. -/
inductive ActionKind where
  | translateKind
  | caseKind
  deriving DecidableEq, Repr

/-- The invoker a fired hotkey of the given kind runs. -/
def invoker_of : ActionKind → Bool → ℤ → DispatchState →
    DispatchState × Bool
  | ActionKind.translateKind => _translate_invoker
  | ActionKind.caseKind => _case_invoker

/-! ### Transform/case workers (src/winapi.py,
`handle_hotkey_transform`, `handle_hotkey_case`,
`_restore_modifiers_from_vks`) -/

/-- Externally visible actions of one worker cycle, in order. -/
inductive HandlerAct where
  | actDelete
  | actInject (text : String)
  | actSwitchLayout (klid : String)
  | actRestoreDown (vk : Nat)
  deriving DecidableEq, Repr

/-- The left-side logical counterpart `_restore_modifiers_from_vks`
chooses for a released side-specific modifier VK (`none` for VKs it does
not recognise, which are not added to `to_press`). -/
def left_variant (vk : Nat) : Option Nat :=
  if vk = VK_LCONTROL ∨ vk = VK_RCONTROL then some VK_LCONTROL
  else if vk = VK_LMENU ∨ vk = VK_RMENU then some VK_LMENU
  else if vk = VK_LSHIFT ∨ vk = VK_RSHIFT then some VK_LSHIFT
  else if vk = VK_LWIN ∨ vk = VK_RWIN then some VK_LWIN
  else none

/-- Embedding of `_restore_modifiers_from_vks`: the set `to_press` of
left-side VKs that get a key-down (a Python set; modelled as a
deduplicated list, with set membership the meaningful observation). -/
def _restore_modifiers_from_vks (vks : List Nat) : List Nat :=
  (vks.filterMap left_variant).dedup

/-- The `finally` block of both workers: when the capture released any
modifiers, press their left-side counterparts again. -/
def handler_restore (pressed : List Nat) : List HandlerAct :=
  if pressed ≠ [] then
    (_restore_modifiers_from_vks pressed).map HandlerAct.actRestoreDown
  else []

/-- The `try` body of `handle_hotkey_transform`, after capture returned
`(captured, pressed)`: nothing when disabled, when the selection is
empty, when an exception escapes the body (`bodyRaises`, caught by the
outer handler), or when the transform is a no-op; otherwise a Delete, the
injection of the converted text, and — when a foreground window handle
was obtained (`hwndOk`) — the layout-switch post. -/
def handle_hotkey_transform_body (enabled : Bool) (hkl : Nat)
    (captured : String) (bodyRaises hwndOk : Bool) : List HandlerAct :=
  if !enabled then []
  else if captured = "" then []
  else if bodyRaises then []
  else
    let converted := transform_text_by_keyboard_layout_based_on_hkl
      captured hkl
    if converted = captured then []
    else
      [HandlerAct.actDelete, HandlerAct.actInject converted] ++
        (if hwndOk then
          [HandlerAct.actSwitchLayout
            (if hkl = 0x0419 then "00000409" else "00000419")]
        else [])

/-- Embedding of `handle_hotkey_transform` as the worker's action trace:
the `try` body followed by the `finally` modifier restoration.
`captured`/`pressed` are the results of `safe_copy_from_selection`;
`hkl` is the already-masked layout id of the foreground thread. -/
def handle_hotkey_transform (enabled : Bool) (hkl : Nat)
    (captured : String) (pressed : List Nat) (bodyRaises hwndOk : Bool) :
    List HandlerAct :=
  handle_hotkey_transform_body enabled hkl captured bodyRaises hwndOk ++
    handler_restore pressed

/-- The `try` body of `handle_hotkey_case` (same shape as the transform
worker's body, with `change_case_by_logic` and no layout-switch post). -/
def handle_hotkey_case_body (enabled : Bool) (captured : String)
    (bodyRaises : Bool) : List HandlerAct :=
  if !enabled then []
  else if captured = "" then []
  else if bodyRaises then []
  else
    let converted := change_case_by_logic captured
    if converted = captured then []
    else [HandlerAct.actDelete, HandlerAct.actInject converted]

/-- Embedding of `handle_hotkey_case` as the worker's action trace. -/
def handle_hotkey_case (enabled : Bool) (captured : String)
    (pressed : List Nat) (bodyRaises : Bool) : List HandlerAct :=
  handle_hotkey_case_body enabled captured bodyRaises ++
    handler_restore pressed

/-! ### Helper lemmas for the injector -/

theorem build_inputs_spec (l : List Char) :
    build_inputs l = (spec_tokenize l).flatMap spec_render_token := by
  induction l using build_inputs.induct with
  | case1 => simp [build_inputs, spec_tokenize]
  | case2 rest ih =>
      simp [build_inputs, spec_tokenize, spec_render_token,
        _append_shifted_enter, VK_SHIFT, VK_RETURN, ih]
  | case3 rest h ih =>
      simp [build_inputs, spec_tokenize, spec_render_token,
        _append_shifted_enter, VK_SHIFT, VK_RETURN, ih]
  | case4 rest ih =>
      simp [build_inputs, spec_tokenize, spec_render_token,
        _append_shifted_enter, VK_SHIFT, VK_RETURN, ih]
  | case5 rest ih =>
      simp [build_inputs, spec_tokenize, spec_render_token,
        _append_vk_press, VK_TAB, ih]
  | case6 ch rest h1 h2 h3 h4 ih =>
      simp [build_inputs, spec_tokenize, spec_render_token, uni_pair, ih]

theorem no_plain_enter_build_inputs (l : List Char) :
    no_plain_enter (build_inputs l) = true := by
  induction l using build_inputs.induct with
  | case1 => simp [build_inputs, no_plain_enter]
  | case2 rest ih =>
      simpa [build_inputs, _append_shifted_enter, VK_SHIFT, VK_RETURN,
        no_plain_enter] using ih
  | case3 rest h ih =>
      simpa [build_inputs, _append_shifted_enter, VK_SHIFT, VK_RETURN,
        no_plain_enter] using ih
  | case4 rest ih =>
      simpa [build_inputs, _append_shifted_enter, VK_SHIFT, VK_RETURN,
        no_plain_enter] using ih
  | case5 rest ih =>
      simpa [build_inputs, _append_vk_press, VK_TAB, no_plain_enter] using ih
  | case6 ch rest h1 h2 h3 h4 ih =>
      simpa [build_inputs, uni_pair, no_plain_enter] using ih

/-- The transform function produces exactly one output character per
input character (used for the length part of the layout claim). -/
theorem transform_data (s : String) (hkl : Nat) :
    transform_text_by_keyboard_layout_based_on_hkl s hkl =
      String.mk (s.data.map (flip_char (_select_mappings_by_hkl hkl).1
        (_select_mappings_by_hkl hkl).2.1)) := rfl

/-! ### Claim theorems -/

/-- C5: for every string containing at least one letter, the case-flip
transform returns the string fully uppercased when all its letters are
lowercase, and fully lowercased otherwise; "hello" ↦ "HELLO",
"HELLO" ↦ "hello", and mixed-case "HellO" ↦ "hello". -/
theorem claim_C5_case_flip :
    (∀ s : String, (∃ c ∈ s.data, pyIsAlpha c) →
      ((∀ c ∈ s.data, pyIsAlpha c → pyIsLower c) →
          change_case_by_logic s = pyUpper s) ∧
      ((¬ ∀ c ∈ s.data, pyIsAlpha c → pyIsLower c) →
          change_case_by_logic s = pyLower s))
    ∧ change_case_by_logic "hello" = "HELLO"
    ∧ change_case_by_logic "HELLO" = "hello"
    ∧ change_case_by_logic "HellO" = "hello" := by
  refine ⟨?_, by decide, by decide, by decide⟩
  intro s hex
  obtain ⟨c, hc, hca⟩ := hex
  have hs : ¬ s = "" := by
    intro h; subst h; simp at hc
  have hl : ¬ s.data.filter pyIsAlpha = [] := by
    intro h
    have hmem : c ∈ s.data.filter pyIsAlpha := List.mem_filter.mpr ⟨hc, hca⟩
    rw [h] at hmem; simp at hmem
  constructor
  · intro hall
    have hb : (s.data.filter pyIsAlpha).all pyIsLower = true := by
      rw [List.all_eq_true]; intro x hx
      have hx2 := List.mem_filter.mp hx
      exact hall x hx2.1 hx2.2
    simp [change_case_by_logic, hs, hl, hb]
  · intro hnall
    have hb : ¬ (s.data.filter pyIsAlpha).all pyIsLower = true := by
      intro hall
      apply hnall; intro x hx hax
      exact List.all_eq_true.mp hall x (List.mem_filter.mpr ⟨hx, hax⟩)
    simp [change_case_by_logic, hs, hl, hb]

/-- Witness for C5: the universal part applied to "hello" (all letters
lowercase) and "Hi" (mixed case). -/
theorem claim_C5_case_flip_witness :
    change_case_by_logic "hello" = pyUpper "hello"
    ∧ change_case_by_logic "Hi" = pyLower "Hi" :=
  ⟨(claim_C5_case_flip.1 "hello" ⟨'h', by decide, by decide⟩).1 (by decide),
   (claim_C5_case_flip.1 "Hi" ⟨'H', by decide, by decide⟩).2 (by decide)⟩

/-- C6: the layout-flip transform chooses its direction from the low 16
bits of the layout id — RU→EN when they equal 0x0419, EN→RU otherwise —
with "Руддщ" at 0x0419 giving "Hello", "ghbdtn" at a non-Russian layout
giving "привет", and output length equal to input length. -/
theorem claim_C6_layout_direction :
    (∀ (s : String) (hkl : Nat), hkl % 65536 = 0x0419 →
        transform_text_by_keyboard_layout_based_on_hkl s hkl =
          String.mk (s.data.map (flip_char RU_TO_EN EN_TO_RU)))
    ∧ (∀ (s : String) (hkl : Nat), hkl % 65536 ≠ 0x0419 →
        transform_text_by_keyboard_layout_based_on_hkl s hkl =
          String.mk (s.data.map (flip_char EN_TO_RU RU_TO_EN)))
    ∧ transform_text_by_keyboard_layout_based_on_hkl "Руддщ" 0x0419 = "Hello"
    ∧ transform_text_by_keyboard_layout_based_on_hkl "ghbdtn" 0x0409 = "привет"
    ∧ (∀ (s : String) (hkl : Nat),
        (transform_text_by_keyboard_layout_based_on_hkl s hkl).length
          = s.length) := by
  refine ⟨?_, ?_, by decide, by decide, ?_⟩
  · intro s hkl h
    simp [transform_text_by_keyboard_layout_based_on_hkl,
      _select_mappings_by_hkl, h]
  · intro s hkl h
    simp [transform_text_by_keyboard_layout_based_on_hkl,
      _select_mappings_by_hkl, h]
  · intro s hkl
    rw [transform_data]
    simp only [String.length, List.length_map]

/-- Witness for C6: the direction conjuncts applied at layout ids 0x0419
and 0x0409. -/
theorem claim_C6_layout_direction_witness :
    transform_text_by_keyboard_layout_based_on_hkl "ab" 0x0419 =
      String.mk ("ab".data.map (flip_char RU_TO_EN EN_TO_RU))
    ∧ transform_text_by_keyboard_layout_based_on_hkl "ab" 0x0409 =
      String.mk ("ab".data.map (flip_char EN_TO_RU RU_TO_EN)) :=
  ⟨claim_C6_layout_direction.1 "ab" 0x0419 (by decide),
   claim_C6_layout_direction.2.1 "ab" 0x0409 (by decide)⟩

/-- C10: the layout flip converts per character in both directions: a
character absent from the layout-selected forward table but present in
the opposite table is converted via that table, only characters in
neither table pass through unchanged, and a character found in the
forward table uses it; e.g. Cyrillic "п" ↦ "g" under a non-Russian
layout and Latin "q" ↦ "й" under the Russian layout. -/
theorem claim_C10_bidirectional :
    (∀ (hkl : Nat) (ch : Char) (c : Char),
        pyDictGet (_select_mappings_by_hkl hkl).1 ch = none →
        pyDictGet (_select_mappings_by_hkl hkl).2.1 ch = some c →
        flip_char (_select_mappings_by_hkl hkl).1
          (_select_mappings_by_hkl hkl).2.1 ch = c)
    ∧ (∀ (hkl : Nat) (ch : Char),
        pyDictGet (_select_mappings_by_hkl hkl).1 ch = none →
        pyDictGet (_select_mappings_by_hkl hkl).2.1 ch = none →
        flip_char (_select_mappings_by_hkl hkl).1
          (_select_mappings_by_hkl hkl).2.1 ch = ch)
    ∧ (∀ (hkl : Nat) (ch : Char) (c : Char),
        pyDictGet (_select_mappings_by_hkl hkl).1 ch = some c →
        flip_char (_select_mappings_by_hkl hkl).1
          (_select_mappings_by_hkl hkl).2.1 ch = c)
    ∧ transform_text_by_keyboard_layout_based_on_hkl "п" 0x0409 = "g"
    ∧ transform_text_by_keyboard_layout_based_on_hkl "q" 0x0419 = "й" := by
  refine ⟨?_, ?_, ?_, by decide, by decide⟩
  · intro hkl ch c h1 h2
    simp [flip_char, h1, h2]
  · intro hkl ch h1 h2
    simp [flip_char, h1, h2]
  · intro hkl ch c h1
    simp [flip_char, h1]

/-- Witness for C10: the three per-character conjuncts applied at
concrete characters (Cyrillic under EN direction, a character in neither
table, Cyrillic key under RU direction). -/
theorem claim_C10_bidirectional_witness :
    flip_char (_select_mappings_by_hkl 0x0409).1
      (_select_mappings_by_hkl 0x0409).2.1 'п' = 'g'
    ∧ flip_char (_select_mappings_by_hkl 0x0409).1
      (_select_mappings_by_hkl 0x0409).2.1 'ß' = 'ß'
    ∧ flip_char (_select_mappings_by_hkl 0x0419).1
      (_select_mappings_by_hkl 0x0419).2.1 'й' = 'q' :=
  ⟨claim_C10_bidirectional.1 0x0409 'п' 'g' (by decide) (by decide),
   claim_C10_bidirectional.2.1 0x0409 'ß' (by decide) (by decide),
   claim_C10_bidirectional.2.2.1 0x0419 'й' 'q' (by decide)⟩

/-- C7: the injector emits one Unicode down/up pair per ordinary
character, a Tab virtual-key pair for a literal tab, and a
Shift+Enter chord for every line-break sequence (CR, LF, or CRLF as a
single break) — never a plain Enter; "a\nb" yields the 8-event trace
with the chord in the middle. -/
theorem claim_C7_injector :
    (∀ text : String,
        send_unicode_via_sendinput text =
          (spec_tokenize text.data).flatMap spec_render_token)
    ∧ (∀ text : String,
        no_plain_enter (send_unicode_via_sendinput text) = true)
    ∧ send_unicode_via_sendinput "a\nb" =
        [KeyEvent.uniDown 97, KeyEvent.uniUp 97, KeyEvent.vkDown 0x10,
         KeyEvent.vkDown 0x0D, KeyEvent.vkUp 0x0D, KeyEvent.vkUp 0x10,
         KeyEvent.uniDown 98, KeyEvent.uniUp 98] := by
  refine ⟨?_, ?_, by decide⟩
  · intro text
    by_cases h : text = ""
    · subst h; decide
    · simp [send_unicode_via_sendinput, h, build_inputs_spec]
  · intro text
    by_cases h : text = ""
    · subst h; decide
    · simp [send_unicode_via_sendinput, h, no_plain_enter_build_inputs]

/-! ### Worker-trace helper lemmas -/

theorem handler_restore_only_restores (pressed : List Nat) :
    ∀ a ∈ handler_restore pressed, ∃ v, a = HandlerAct.actRestoreDown v := by
  intro a ha
  by_cases h : pressed ≠ []
  · simp only [handler_restore, if_pos h, List.mem_map] at ha
    obtain ⟨v, _, hv⟩ := ha
    exact ⟨v, hv.symm⟩
  · simp [handler_restore, h] at ha

theorem transform_body_no_restores (enabled : Bool) (hkl : Nat)
    (captured : String) (br hw : Bool) :
    ∀ a ∈ handle_hotkey_transform_body enabled hkl captured br hw,
      ∀ v, a ≠ HandlerAct.actRestoreDown v := by
  intro a ha v
  simp only [handle_hotkey_transform_body] at ha
  split at ha
  · simp at ha
  · split at ha
    · simp at ha
    · split at ha
      · simp at ha
      · split at ha
        · simp at ha
        · rcases List.mem_append.mp ha with h | h
          · simp only [List.mem_cons, List.not_mem_nil, or_false] at h
            rcases h with h | h <;> (subst h; simp)
          · split at h
            · simp only [List.mem_singleton] at h
              subst h; simp
            · simp at h

theorem case_body_no_restores (enabled : Bool) (captured : String)
    (br : Bool) :
    ∀ a ∈ handle_hotkey_case_body enabled captured br,
      ∀ v, a ≠ HandlerAct.actRestoreDown v := by
  intro a ha v
  simp only [handle_hotkey_case_body] at ha
  split at ha
  · simp at ha
  · split at ha
    · simp at ha
    · split at ha
      · simp at ha
      · split at ha
        · simp at ha
        · simp only [List.mem_cons, List.not_mem_nil, or_false] at ha
          rcases ha with h | h <;> (subst h; simp)

theorem transform_body_trivial_nil (enabled : Bool) (hkl : Nat)
    (captured : String) (br hw : Bool)
    (h : captured = "" ∨
      transform_text_by_keyboard_layout_based_on_hkl captured hkl
        = captured) :
    handle_hotkey_transform_body enabled hkl captured br hw = [] := by
  rcases h with h | h
  · subst h; simp [handle_hotkey_transform_body]
  · simp [handle_hotkey_transform_body, h]

theorem case_body_trivial_nil (enabled : Bool) (captured : String)
    (br : Bool)
    (h : captured = "" ∨ change_case_by_logic captured = captured) :
    handle_hotkey_case_body enabled captured br = [] := by
  rcases h with h | h
  · subst h; simp [handle_hotkey_case_body]
  · simp [handle_hotkey_case_body, h]

theorem restore_no_delete_inject (pressed : List Nat) :
    HandlerAct.actDelete ∉ handler_restore pressed
    ∧ ∀ t, HandlerAct.actInject t ∉ handler_restore pressed := by
  constructor
  · intro h
    obtain ⟨v, hv⟩ := handler_restore_only_restores pressed _ h
    simp at hv
  · intro t h
    obtain ⟨v, hv⟩ := handler_restore_only_restores pressed _ h
    simp at hv

/-- C8: in every transform or case cycle, an empty captured selection or
a no-op transform means no Delete and no injection is synthesized; the
delete-and-inject phase runs only when (and, when enabled and without an
exception, exactly when) the captured text is non-empty and differs from
its transform. -/
theorem claim_C8_trivial_cycle_frame :
    (∀ (enabled : Bool) (hkl : Nat) (captured : String) (pressed : List Nat)
        (br hw : Bool),
      (captured = "" ∨
        transform_text_by_keyboard_layout_based_on_hkl captured hkl
          = captured) →
      HandlerAct.actDelete ∉
          handle_hotkey_transform enabled hkl captured pressed br hw
        ∧ ∀ t, HandlerAct.actInject t ∉
          handle_hotkey_transform enabled hkl captured pressed br hw)
    ∧ (∀ (enabled : Bool) (captured : String) (pressed : List Nat)
        (br : Bool),
      (captured = "" ∨ change_case_by_logic captured = captured) →
      HandlerAct.actDelete ∉ handle_hotkey_case enabled captured pressed br
        ∧ ∀ t, HandlerAct.actInject t ∉
          handle_hotkey_case enabled captured pressed br)
    ∧ (∀ (enabled : Bool) (hkl : Nat) (captured : String)
        (pressed : List Nat) (br hw : Bool),
      (HandlerAct.actDelete ∈
          handle_hotkey_transform enabled hkl captured pressed br hw
        ∨ ∃ t, HandlerAct.actInject t ∈
          handle_hotkey_transform enabled hkl captured pressed br hw) →
      captured ≠ "" ∧
        transform_text_by_keyboard_layout_based_on_hkl captured hkl
          ≠ captured)
    ∧ (∀ (enabled : Bool) (captured : String) (pressed : List Nat)
        (br : Bool),
      (HandlerAct.actDelete ∈ handle_hotkey_case enabled captured pressed br
        ∨ ∃ t, HandlerAct.actInject t ∈
          handle_hotkey_case enabled captured pressed br) →
      captured ≠ "" ∧ change_case_by_logic captured ≠ captured)
    ∧ (∀ (hkl : Nat) (captured : String) (pressed : List Nat) (hw : Bool),
      captured ≠ "" →
      transform_text_by_keyboard_layout_based_on_hkl captured hkl
        ≠ captured →
      HandlerAct.actDelete ∈
          handle_hotkey_transform true hkl captured pressed false hw
        ∧ HandlerAct.actInject
            (transform_text_by_keyboard_layout_based_on_hkl captured hkl) ∈
          handle_hotkey_transform true hkl captured pressed false hw)
    ∧ (∀ (captured : String) (pressed : List Nat),
      captured ≠ "" → change_case_by_logic captured ≠ captured →
      HandlerAct.actDelete ∈ handle_hotkey_case true captured pressed false
        ∧ HandlerAct.actInject (change_case_by_logic captured) ∈
          handle_hotkey_case true captured pressed false) := by
  have htriv : ∀ (enabled : Bool) (hkl : Nat) (captured : String)
      (pressed : List Nat) (br hw : Bool),
      (captured = "" ∨
        transform_text_by_keyboard_layout_based_on_hkl captured hkl
          = captured) →
      HandlerAct.actDelete ∉
          handle_hotkey_transform enabled hkl captured pressed br hw
        ∧ ∀ t, HandlerAct.actInject t ∉
          handle_hotkey_transform enabled hkl captured pressed br hw := by
    intro enabled hkl captured pressed br hw h
    have hb := transform_body_trivial_nil enabled hkl captured br hw h
    constructor
    · intro hmem
      have hr : HandlerAct.actDelete ∈ handler_restore pressed := by
        simpa [handle_hotkey_transform, hb] using hmem
      exact (restore_no_delete_inject pressed).1 hr
    · intro t hmem
      have hr : HandlerAct.actInject t ∈ handler_restore pressed := by
        simpa [handle_hotkey_transform, hb] using hmem
      exact (restore_no_delete_inject pressed).2 t hr
  have htrivc : ∀ (enabled : Bool) (captured : String) (pressed : List Nat)
      (br : Bool),
      (captured = "" ∨ change_case_by_logic captured = captured) →
      HandlerAct.actDelete ∉ handle_hotkey_case enabled captured pressed br
        ∧ ∀ t, HandlerAct.actInject t ∉
          handle_hotkey_case enabled captured pressed br := by
    intro enabled captured pressed br h
    have hb := case_body_trivial_nil enabled captured br h
    constructor
    · intro hmem
      have hr : HandlerAct.actDelete ∈ handler_restore pressed := by
        simpa [handle_hotkey_case, hb] using hmem
      exact (restore_no_delete_inject pressed).1 hr
    · intro t hmem
      have hr : HandlerAct.actInject t ∈ handler_restore pressed := by
        simpa [handle_hotkey_case, hb] using hmem
      exact (restore_no_delete_inject pressed).2 t hr
  refine ⟨htriv, htrivc, ?_, ?_, ?_, ?_⟩
  · intro enabled hkl captured pressed br hw h
    constructor
    · intro hc
      have hni := htriv enabled hkl captured pressed br hw (Or.inl hc)
      rcases h with h | ⟨t, h⟩
      · exact hni.1 h
      · exact hni.2 t h
    · intro hc
      have hni := htriv enabled hkl captured pressed br hw (Or.inr hc)
      rcases h with h | ⟨t, h⟩
      · exact hni.1 h
      · exact hni.2 t h
  · intro enabled captured pressed br h
    constructor
    · intro hc
      have hni := htrivc enabled captured pressed br (Or.inl hc)
      rcases h with h | ⟨t, h⟩
      · exact hni.1 h
      · exact hni.2 t h
    · intro hc
      have hni := htrivc enabled captured pressed br (Or.inr hc)
      rcases h with h | ⟨t, h⟩
      · exact hni.1 h
      · exact hni.2 t h
  · intro hkl captured pressed hw h1 h2
    constructor <;>
      simp [handle_hotkey_transform, handle_hotkey_transform_body, h1, h2]
  · intro captured pressed h1 h2
    constructor <;>
      simp [handle_hotkey_case, handle_hotkey_case_body, h1, h2]

/-- Witness for C8: an empty capture synthesizes no Delete; a non-trivial
case cycle does synthesize one. -/
theorem claim_C8_witness :
    (HandlerAct.actDelete ∉
        handle_hotkey_transform true 0x0419 "" [VK_RSHIFT] false true)
    ∧ HandlerAct.actDelete ∈ handle_hotkey_case true "abc" [] false :=
  ⟨(claim_C8_trivial_cycle_frame.1 true 0x0419 "" [VK_RSHIFT] false true
      (Or.inl rfl)).1,
   (claim_C8_trivial_cycle_frame.2.2.2.2.2 "abc" [] (by decide)
      (by decide)).1⟩

/-- C9 counterexample: the right Control key is released during capture,
but the cycle never presses VK_RCONTROL again (the restore presses
VK_LCONTROL instead), so the claim that every released physical key is
pressed again is false. -/
theorem claim_C9_counterexample :
    VK_RCONTROL ∈ ([VK_RCONTROL] : List Nat)
    ∧ HandlerAct.actRestoreDown VK_RCONTROL ∉
        handle_hotkey_transform true 0x0409 "ab" [VK_RCONTROL] false true := by
  decide

/-- C9 (amended): for every released physical modifier key, the left-side
key of the same logical modifier is pressed again by the end of the
cycle, on every outcome path (any enabled/empty/no-op/exception
combination), and all restore presses come after the body — in
particular after any injection. -/
theorem claim_C9_modifier_restoration :
    (∀ (enabled : Bool) (hkl : Nat) (captured : String)
        (pressed : List Nat) (br hw : Bool) (vk l : Nat),
      vk ∈ pressed → left_variant vk = some l →
      HandlerAct.actRestoreDown l ∈
        handle_hotkey_transform enabled hkl captured pressed br hw)
    ∧ (∀ (enabled : Bool) (captured : String) (pressed : List Nat)
        (br : Bool) (vk l : Nat),
      vk ∈ pressed → left_variant vk = some l →
      HandlerAct.actRestoreDown l ∈
        handle_hotkey_case enabled captured pressed br)
    ∧ (∀ (enabled : Bool) (hkl : Nat) (captured : String)
        (pressed : List Nat) (br hw : Bool),
      handle_hotkey_transform enabled hkl captured pressed br hw =
        handle_hotkey_transform_body enabled hkl captured br hw ++
          handler_restore pressed
      ∧ (∀ a ∈ handle_hotkey_transform_body enabled hkl captured br hw,
          ∀ v, a ≠ HandlerAct.actRestoreDown v)
      ∧ (∀ a ∈ handler_restore pressed,
          ∃ v, a = HandlerAct.actRestoreDown v))
    ∧ (∀ (enabled : Bool) (captured : String) (pressed : List Nat)
        (br : Bool),
      handle_hotkey_case enabled captured pressed br =
        handle_hotkey_case_body enabled captured br ++
          handler_restore pressed
      ∧ (∀ a ∈ handle_hotkey_case_body enabled captured br,
          ∀ v, a ≠ HandlerAct.actRestoreDown v)
      ∧ (∀ a ∈ handler_restore pressed,
          ∃ v, a = HandlerAct.actRestoreDown v)) := by
  have hrest : ∀ (pressed : List Nat) (vk l : Nat), vk ∈ pressed →
      left_variant vk = some l →
      HandlerAct.actRestoreDown l ∈ handler_restore pressed := by
    intro pressed vk l hvk hl
    have hne : pressed ≠ [] := by
      intro h; subst h; simp at hvk
    have hmem : l ∈ _restore_modifiers_from_vks pressed := by
      simp only [_restore_modifiers_from_vks, List.mem_dedup,
        List.mem_filterMap]
      exact ⟨vk, hvk, hl⟩
    simp only [handler_restore, if_pos hne, List.mem_map]
    exact ⟨l, hmem, rfl⟩
  refine ⟨?_, ?_, ?_, ?_⟩
  · intro enabled hkl captured pressed br hw vk l hvk hl
    exact List.mem_append.mpr (Or.inr (hrest pressed vk l hvk hl))
  · intro enabled captured pressed br vk l hvk hl
    exact List.mem_append.mpr (Or.inr (hrest pressed vk l hvk hl))
  · intro enabled hkl captured pressed br hw
    exact ⟨rfl, transform_body_no_restores enabled hkl captured br hw,
      handler_restore_only_restores pressed⟩
  · intro enabled captured pressed br
    exact ⟨rfl, case_body_no_restores enabled captured br,
      handler_restore_only_restores pressed⟩

/-- Witness for C9: a released right Shift leads to a left-Shift restore
press in an empty-selection cycle. -/
theorem claim_C9_witness :
    HandlerAct.actRestoreDown VK_LSHIFT ∈
      handle_hotkey_transform true 0x0409 "" [VK_RSHIFT] false true :=
  claim_C9_modifier_restoration.1 true 0x0409 "" [VK_RSHIFT] false true
    VK_RSHIFT VK_LSHIFT (by decide) (by decide)

/-- C1 counterexample: the exit slot is registered as (0, 0x79) and the
user re-registers it to plain F4, which conflicts with the translate
slot; the updater reports the conflict but the exit slot does not keep
its previous registration — it was unregistered before the check. -/
theorem claim_C1_counterexample :
    (update_exit_hotkey_in_thread ⟨[], "F4"⟩ ⟨[], "F4"⟩ ⟨[], "U"⟩ true
        ⟨some (0, 0x79), some (0, 0x73), some (0, 0x55)⟩).2
      = RegOutcome.conflict Slot.slotTranslate
    ∧ ¬ (update_exit_hotkey_in_thread ⟨[], "F4"⟩ ⟨[], "F4"⟩ ⟨[], "U"⟩ true
        ⟨some (0, 0x79), some (0, 0x73), some (0, 0x55)⟩).1.exitReg
      = some (0, 0x79) := by decide

/-- C1 (amended): when the slot's resolved (mask, key) pair equals a
sibling slot's pair, the registration is refused with a Conflict, no OS
registration of the new pair is attempted, and the sibling slots'
registrations are unchanged; the slot being re-registered, however, is
left unregistered, because its previous registration is released before
the conflict check (for both the exit and the case updater). -/
theorem claim_C1_conflict_refusal :
    (∀ (cfgE cfgT cfgC : HotkeyConfig) (osOk : Bool) (st : RegState),
      (hotkeys_conflict
          (hotkey_tuple_from_config cfgE.modifiers
            (if cfgE.key = "" then "F10" else cfgE.key)).1
          (hotkey_tuple_from_config cfgE.modifiers
            (if cfgE.key = "" then "F10" else cfgE.key)).2
          (hotkey_tuple_from_config cfgT.modifiers cfgT.key).1
          (hotkey_tuple_from_config cfgT.modifiers cfgT.key).2 = true
        ∨ hotkeys_conflict
          (hotkey_tuple_from_config cfgE.modifiers
            (if cfgE.key = "" then "F10" else cfgE.key)).1
          (hotkey_tuple_from_config cfgE.modifiers
            (if cfgE.key = "" then "F10" else cfgE.key)).2
          (hotkey_tuple_from_config cfgC.modifiers cfgC.key).1
          (hotkey_tuple_from_config cfgC.modifiers cfgC.key).2 = true) →
      (∃ sib, (update_exit_hotkey_in_thread cfgE cfgT cfgC osOk st).2
          = RegOutcome.conflict sib)
      ∧ (update_exit_hotkey_in_thread cfgE cfgT cfgC osOk st).1.exitReg
          = none
      ∧ (update_exit_hotkey_in_thread cfgE cfgT cfgC osOk st).1.translateReg
          = st.translateReg
      ∧ (update_exit_hotkey_in_thread cfgE cfgT cfgC osOk st).1.caseReg
          = st.caseReg)
    ∧ (∀ (cfgE cfgT cfgC : HotkeyConfig) (osOk : Bool) (st : RegState),
      (hotkeys_conflict
          (hotkey_tuple_from_config cfgC.modifiers
            (if cfgC.key = "" then "U" else cfgC.key)).1
          (hotkey_tuple_from_config cfgC.modifiers
            (if cfgC.key = "" then "U" else cfgC.key)).2
          (hotkey_tuple_from_config cfgT.modifiers cfgT.key).1
          (hotkey_tuple_from_config cfgT.modifiers cfgT.key).2 = true
        ∨ hotkeys_conflict
          (hotkey_tuple_from_config cfgC.modifiers
            (if cfgC.key = "" then "U" else cfgC.key)).1
          (hotkey_tuple_from_config cfgC.modifiers
            (if cfgC.key = "" then "U" else cfgC.key)).2
          (hotkey_tuple_from_config cfgE.modifiers cfgE.key).1
          (hotkey_tuple_from_config cfgE.modifiers cfgE.key).2 = true) →
      (∃ sib, (update_case_hotkey_in_thread cfgE cfgT cfgC osOk st).2
          = RegOutcome.conflict sib)
      ∧ (update_case_hotkey_in_thread cfgE cfgT cfgC osOk st).1.caseReg
          = none
      ∧ (update_case_hotkey_in_thread cfgE cfgT cfgC osOk st).1.translateReg
          = st.translateReg
      ∧ (update_case_hotkey_in_thread cfgE cfgT cfgC osOk st).1.exitReg
          = st.exitReg) := by
  constructor
  · intro cfgE cfgT cfgC osOk st h
    by_cases h1 : hotkeys_conflict
        (hotkey_tuple_from_config cfgE.modifiers
          (if cfgE.key = "" then "F10" else cfgE.key)).1
        (hotkey_tuple_from_config cfgE.modifiers
          (if cfgE.key = "" then "F10" else cfgE.key)).2
        (hotkey_tuple_from_config cfgT.modifiers cfgT.key).1
        (hotkey_tuple_from_config cfgT.modifiers cfgT.key).2 = true
    · refine ⟨⟨Slot.slotTranslate, ?_⟩, ?_, ?_, ?_⟩ <;>
        simp [update_exit_hotkey_in_thread, h1]
    · rcases h with h | h
      · exact absurd h h1
      · refine ⟨⟨Slot.slotCase, ?_⟩, ?_, ?_, ?_⟩ <;>
          simp [update_exit_hotkey_in_thread, h1, h]
  · intro cfgE cfgT cfgC osOk st h
    by_cases h1 : hotkeys_conflict
        (hotkey_tuple_from_config cfgC.modifiers
          (if cfgC.key = "" then "U" else cfgC.key)).1
        (hotkey_tuple_from_config cfgC.modifiers
          (if cfgC.key = "" then "U" else cfgC.key)).2
        (hotkey_tuple_from_config cfgT.modifiers cfgT.key).1
        (hotkey_tuple_from_config cfgT.modifiers cfgT.key).2 = true
    · refine ⟨⟨Slot.slotTranslate, ?_⟩, ?_, ?_, ?_⟩ <;>
        simp [update_case_hotkey_in_thread, h1]
    · rcases h with h | h
      · exact absurd h h1
      · refine ⟨⟨Slot.slotExit, ?_⟩, ?_, ?_, ?_⟩ <;>
          simp [update_case_hotkey_in_thread, h1, h]

/-- Witness for C1: re-registering the exit slot to plain F4 while the
translate slot holds plain F4 is refused with a conflict and leaves the
translate and case slots untouched. -/
theorem claim_C1_witness :
    (∃ sib, (update_exit_hotkey_in_thread ⟨[], "F4"⟩ ⟨[], "F4"⟩ ⟨[], "U"⟩
        true ⟨none, some (0, 0x73), none⟩).2 = RegOutcome.conflict sib)
    ∧ (update_exit_hotkey_in_thread ⟨[], "F4"⟩ ⟨[], "F4"⟩ ⟨[], "U"⟩
        true ⟨none, some (0, 0x73), none⟩).1.exitReg = none
    ∧ (update_exit_hotkey_in_thread ⟨[], "F4"⟩ ⟨[], "F4"⟩ ⟨[], "U"⟩
        true ⟨none, some (0, 0x73), none⟩).1.translateReg
        = (⟨none, some (0, 0x73), none⟩ : RegState).translateReg
    ∧ (update_exit_hotkey_in_thread ⟨[], "F4"⟩ ⟨[], "F4"⟩ ⟨[], "U"⟩
        true ⟨none, some (0, 0x73), none⟩).1.caseReg
        = (⟨none, some (0, 0x73), none⟩ : RegState).caseReg :=
  claim_C1_conflict_refusal.1 ⟨[], "F4"⟩ ⟨[], "F4"⟩ ⟨[], "U"⟩ true
    ⟨none, some (0, 0x73), none⟩ (Or.inl (by decide))

/-- C3 counterexample: with the clipboard sequence number available but
never changing and `max_attempts = 2`, the capture performs only one
Ctrl+C round, not two — the retry loop ends in an unconditional break —
though it does return empty text. -/
theorem claim_C3_counterexample :
    ((safe_copy_from_selection ⟨true, false, "", true, []⟩ 2).2.2.count
        CopyAct.actCtrlC = 1)
    ∧ ¬ ((safe_copy_from_selection ⟨true, false, "", true, []⟩ 2).2.2.count
        CopyAct.actCtrlC = 2)
    ∧ (safe_copy_from_selection ⟨true, false, "", true, []⟩ 2).1 = "" := by
  decide

/-- C3 (amended): when the clipboard sequence number never changes, the
capture performs exactly one Ctrl+C-then-Ctrl+Insert round — regardless
of `maxAttempts ≥ 1`, because the retry loop breaks unconditionally after
the first no-change round — and then returns empty text without
raising. -/
theorem claim_C3_single_round :
    ∀ (env : CaptureEnv) (max_attempts : Nat),
      env.oldSeqAvailable = true → env.seqChanges = false →
      env.foregroundStable = true → 1 ≤ max_attempts →
      (safe_copy_from_selection env max_attempts).1 = ""
      ∧ (safe_copy_from_selection env max_attempts).2.2.count
          CopyAct.actCtrlC = 1
      ∧ (safe_copy_from_selection env max_attempts).2.2.count
          CopyAct.actCtrlInsert = 1 := by
  intro env ma h1 h2 h3 hge
  cases ma with
  | zero => omega
  | succ k =>
    have hc : CopyAct.actCtrlC ∉ env.pressed.map CopyAct.actReleaseMod := by
      simp
    have hi : CopyAct.actCtrlInsert ∉
        env.pressed.map CopyAct.actReleaseMod := by
      simp
    refine ⟨?_, ?_, ?_⟩ <;>
      simp [safe_copy_from_selection, attempt_rounds, h1, h2, h3,
        List.count_append, List.count_cons, List.count_eq_zero.mpr hc,
        List.count_eq_zero.mpr hi]

/-- Witness for C3: a concrete no-change capture with one held modifier
returns empty and performed one Ctrl+C and one Ctrl+Insert. -/
theorem claim_C3_witness :
    (safe_copy_from_selection ⟨true, false, "zzz", true, [VK_LSHIFT]⟩ 2).1
      = ""
    ∧ (safe_copy_from_selection ⟨true, false, "zzz", true, [VK_LSHIFT]⟩
        2).2.2.count CopyAct.actCtrlC = 1
    ∧ (safe_copy_from_selection ⟨true, false, "zzz", true, [VK_LSHIFT]⟩
        2).2.2.count CopyAct.actCtrlInsert = 1 :=
  claim_C3_single_round ⟨true, false, "zzz", true, [VK_LSHIFT]⟩ 2 rfl rfl
    rfl (by decide)

/-- Both invokers share one body over the same module-level state. -/
theorem invoker_of_eq (k : ActionKind) :
    invoker_of k = _translate_invoker := by
  cases k
  · rfl
  · rfl

/-- C4 counterexample: a worker spawned by a trigger accepted at t = 0 ms
is still running at t = 1000 ms when a second trigger arrives; that
trigger passes the debounce check, is dropped by the busy lock, yet
advances `_last_translate_ts` to 1000.  After the worker finishes, a
trigger at t = 1500 ms — 1500 ms after the last accepted (spawned)
trigger, with the lock free — is still dropped, so the debounce interval
is not measured from the last accepted trigger. -/
theorem claim_C4_counterexample :
    (_case_invoker true 1000 ⟨0, true⟩).2 = false
    ∧ (_case_invoker true 1000 ⟨0, true⟩).1.lastTranslateTs = 1000
    ∧ (release_handler_lock
        (_case_invoker true 1000 ⟨0, true⟩).1).handlerLockHeld = false
    ∧ ((1500 : ℤ) - 0 ≥ _TRANSLATE_DEBOUNCE_MS)
    ∧ (_translate_invoker true 1500
        (release_handler_lock (_case_invoker true 1000 ⟨0, true⟩).1)).2
      = false := by
  decide

/-- C4 (amended): two triggers of either kind within the shared debounce
interval spawn exactly one worker (the second is dropped); a trigger
arriving while the lock is held is dropped; a debounce-dropped trigger
leaves the state untouched (nothing is queued); and the interval is
measured from the last trigger that passed the debounce check — a
lock-dropped trigger also advances the timestamp — while a trigger past
the interval with the lock free spawns and records its time. -/
theorem claim_C4_debounce :
    (∀ (k1 k2 : ActionKind) (enabled : Bool) (t1 t2 : ℤ)
        (st : DispatchState),
      (invoker_of k1 enabled t1 st).2 = true →
      t2 - t1 < _TRANSLATE_DEBOUNCE_MS →
      (invoker_of k2 enabled t2 (invoker_of k1 enabled t1 st).1).2 = false)
    ∧ (∀ (k : ActionKind) (enabled : Bool) (t : ℤ) (st : DispatchState),
      st.handlerLockHeld = true → (invoker_of k enabled t st).2 = false)
    ∧ (∀ (k : ActionKind) (t : ℤ) (st : DispatchState),
      t - st.lastTranslateTs < _TRANSLATE_DEBOUNCE_MS →
      invoker_of k true t st = (st, false))
    ∧ (∀ (k : ActionKind) (t : ℤ) (st : DispatchState),
      t - st.lastTranslateTs ≥ _TRANSLATE_DEBOUNCE_MS →
      st.handlerLockHeld = true →
      (invoker_of k true t st).1.lastTranslateTs = t
      ∧ (invoker_of k true t st).2 = false)
    ∧ (∀ (k : ActionKind) (t : ℤ) (st : DispatchState),
      t - st.lastTranslateTs ≥ _TRANSLATE_DEBOUNCE_MS →
      st.handlerLockHeld = false →
      invoker_of k true t st = (⟨t, true⟩, true)) := by
  refine ⟨?_, ?_, ?_, ?_, ?_⟩
  · intro k1 k2 enabled t1 t2 st h1 h2
    rw [invoker_of_eq] at h1 ⊢
    rw [invoker_of_eq]
    by_cases he : enabled
    · by_cases hd : t1 - st.lastTranslateTs < _TRANSLATE_DEBOUNCE_MS
      · simp [_translate_invoker, he, hd] at h1
      · by_cases hl : st.handlerLockHeld
        · simp [_translate_invoker, he, hd, hl] at h1
        · have hs1 : (_translate_invoker enabled t1 st).1
              = ⟨t1, true⟩ := by
            simp [_translate_invoker, he, hd, hl]
          rw [hs1]
          simp [_translate_invoker, he, h2]
    · simp [_translate_invoker, he] at h1
  · intro k enabled t st hl
    rw [invoker_of_eq]
    by_cases he : enabled
    · by_cases hd : t - st.lastTranslateTs < _TRANSLATE_DEBOUNCE_MS
      · simp [_translate_invoker, he, hd]
      · simp [_translate_invoker, he, hd, hl]
    · simp [_translate_invoker, he]
  · intro k t st hd
    rw [invoker_of_eq]
    simp [_translate_invoker, hd]
  · intro k t st hd hl
    rw [invoker_of_eq]
    have hd2 : ¬ t - st.lastTranslateTs < _TRANSLATE_DEBOUNCE_MS := by
      omega
    constructor <;> simp [_translate_invoker, hd2, hl]
  · intro k t st hd hl
    rw [invoker_of_eq]
    have hd2 : ¬ t - st.lastTranslateTs < _TRANSLATE_DEBOUNCE_MS := by
      omega
    simp [_translate_invoker, hd2, hl]

/-- Witness for C4: a translate trigger spawns at t = 0 and a case
trigger 300 ms later is dropped. -/
theorem claim_C4_witness :
    (invoker_of ActionKind.caseKind true 300
      (invoker_of ActionKind.translateKind true 0 ⟨-600, false⟩).1).2
    = false :=
  claim_C4_debounce.1 ActionKind.translateKind ActionKind.caseKind true 0
    300 ⟨-600, false⟩ (by decide) (by decide)

/-! ### Message-loop helper lemmas -/

theorem loop_step_no_break (env : LoopEnv) (m : LoopMsg) (st : LoopState)
    (h : is_break_msg m = false) :
    (loop_step env m st).2 = false
    ∧ (loop_step env m st).1.exitInvocations = st.exitInvocations
    ∧ (loop_step env m st).1.exitFlag = st.exitFlag := by
  cases m <;> simp_all [loop_step, is_break_msg, HOTKEY_ID_EXIT,
    HOTKEY_ID_TRANSLATE, HOTKEY_ID_CASE]
  case hotkeyMsg id =>
    by_cases h1 : id = 1 <;> by_cases h3 : id = 3 <;> simp_all

theorem run_loop_exit (env : LoopEnv) (rest : List LoopMsg) :
    ∀ (pre : List LoopMsg) (st : LoopState),
      (∀ m ∈ pre, is_break_msg m = false) →
      ∃ stf, run_loop_msgs env
          (pre ++ LoopMsg.hotkeyMsg HOTKEY_ID_EXIT :: rest) st = some stf
        ∧ stf.exitFlag = true
        ∧ stf.regs = ⟨none, none, none⟩
        ∧ stf.exitInvocations = st.exitInvocations + 1 := by
  intro pre
  induction pre with
  | nil =>
    intro st h
    refine ⟨⟨⟨none, none, none⟩, true, st.exitInvocations + 1,
      st.translateForwards, st.caseForwards⟩, ?_, rfl, rfl, rfl⟩
    simp [run_loop_msgs, loop_step, HOTKEY_ID_EXIT]
  | cons m pre ih =>
    intro st h
    have hm := h m (List.mem_cons_self m pre)
    have hstep := loop_step_no_break env m st hm
    have hpre : ∀ x ∈ pre, is_break_msg x = false :=
      fun x hx => h x (List.mem_cons_of_mem _ hx)
    obtain ⟨stf, hrun, hflag, hregs, hinv⟩ := ih (loop_step env m st).1 hpre
    refine ⟨stf, ?_, hflag, hregs, ?_⟩
    · rw [List.cons_append]
      simp only [run_loop_msgs, hstep.1]
      simpa using hrun
    · rw [hinv, hstep.2.1]

theorem run_loop_quit (env : LoopEnv) (rest : List LoopMsg) :
    ∀ (pre : List LoopMsg) (st : LoopState),
      (∀ m ∈ pre, is_break_msg m = false) →
      ∃ stf, run_loop_msgs env
          (pre ++ LoopMsg.quitMsg :: rest) st = some stf
        ∧ stf.exitFlag = st.exitFlag
        ∧ stf.exitInvocations = st.exitInvocations := by
  intro pre
  induction pre with
  | nil =>
    intro st h
    refine ⟨st, ?_, rfl, rfl⟩
    simp [run_loop_msgs, loop_step]
  | cons m pre ih =>
    intro st h
    have hm := h m (List.mem_cons_self m pre)
    have hstep := loop_step_no_break env m st hm
    have hpre : ∀ x ∈ pre, is_break_msg x = false :=
      fun x hx => h x (List.mem_cons_of_mem _ hx)
    obtain ⟨stf, hrun, hflag, hinv⟩ := ih (loop_step env m st).1 hpre
    refine ⟨stf, ?_, ?_, ?_⟩
    · rw [List.cons_append]
      simp only [run_loop_msgs, hstep.1]
      simpa using hrun
    · rw [hflag, hstep.2.2]
    · rw [hinv, hstep.2.1]

/-- C2 counterexample: when the exit hotkey fires, every registered exit
callback is invoked twice — once by the exit branch of the loop and once
more by the loop's cleanup block — not exactly once. -/
theorem claim_C2_counterexample :
    ((win_hotkey_loop ⟨⟨[], "F10"⟩, ⟨[], "F4"⟩, ⟨[], "U"⟩, true, true⟩
        [LoopMsg.hotkeyMsg HOTKEY_ID_EXIT]).map
      (fun st => st.exitInvocations)) = some 2
    ∧ ((win_hotkey_loop ⟨⟨[], "F10"⟩, ⟨[], "F4"⟩, ⟨[], "U"⟩, true, true⟩
        [LoopMsg.hotkeyMsg HOTKEY_ID_EXIT]).map
      (fun st => st.exitInvocations)) ≠ some 1 := by
  decide

/-- C2 (amended): when the exit slot's hotkey fires, the loop sets the
process-wide cancellation flag, unregisters all three hotkey slots and
terminates; the exit callbacks are each invoked twice on this path (the
exit branch and the cleanup both run them), and once on a WM_QUIT
termination. -/
theorem claim_C2_exit_semantics :
    (∀ (env : LoopEnv) (pre rest : List LoopMsg),
      (∀ m ∈ pre, is_break_msg m = false) →
      ∃ stf, win_hotkey_loop env
          (pre ++ LoopMsg.hotkeyMsg HOTKEY_ID_EXIT :: rest) = some stf
        ∧ stf.exitFlag = true
        ∧ stf.regs = ⟨none, none, none⟩
        ∧ stf.exitInvocations = 2)
    ∧ (∀ (env : LoopEnv) (pre rest : List LoopMsg),
      (∀ m ∈ pre, is_break_msg m = false) →
      ∃ stf, win_hotkey_loop env
          (pre ++ LoopMsg.quitMsg :: rest) = some stf
        ∧ stf.exitFlag = true
        ∧ stf.regs = ⟨none, none, none⟩
        ∧ stf.exitInvocations = 1) := by
  constructor
  · intro env pre rest h
    obtain ⟨stf, hrun, hflag, hregs, hinv⟩ :=
      run_loop_exit env rest pre (loop_startup env) h
    refine ⟨loop_cleanup stf, ?_, rfl, rfl, ?_⟩
    · simp [win_hotkey_loop, hrun]
    · have h0 : (loop_startup env).exitInvocations = 0 := rfl
      rw [h0] at hinv
      simp [loop_cleanup, hinv]
  · intro env pre rest h
    obtain ⟨stf, hrun, hflag, hinv⟩ :=
      run_loop_quit env rest pre (loop_startup env) h
    refine ⟨loop_cleanup stf, ?_, rfl, rfl, ?_⟩
    · simp [win_hotkey_loop, hrun]
    · have h0 : (loop_startup env).exitInvocations = 0 := rfl
      rw [h0] at hinv
      simp [loop_cleanup, hinv]

/-- Witness for C2: an unrelated message followed by the exit fire
terminates the loop with the flag set, everything unregistered, and two
handler invocations. -/
theorem claim_C2_witness :
    ∃ stf, win_hotkey_loop ⟨⟨[], "F10"⟩, ⟨[], "F4"⟩, ⟨[], "U"⟩, true, true⟩
        ([LoopMsg.otherMsg] ++ LoopMsg.hotkeyMsg HOTKEY_ID_EXIT :: [])
      = some stf
      ∧ stf.exitFlag = true
      ∧ stf.regs = ⟨none, none, none⟩
      ∧ stf.exitInvocations = 2 :=
  claim_C2_exit_semantics.1 ⟨⟨[], "F10"⟩, ⟨[], "F4"⟩, ⟨[], "U"⟩, true, true⟩
    [LoopMsg.otherMsg] [] (by decide)

end KeyFlip
